import Mathlib

/-!
Verification development for the train-system backend's route-planning and
fare core (src/src/routes/service.py, fare_service.py, validation.py).

Conventions of the shallow embedding:
* Python `int` is modelled as `ℤ`, `Decimal` and `float` as `ℚ` (exact
  rational arithmetic in place of decimal-context / IEEE arithmetic),
  `datetime` as `ℤ` minutes, and `str` as `String`.
* SQLAlchemy rows become structures; a database session becomes an explicit
  `DB` value and `query(...).filter(...).first()` becomes `List.find?`.
* Python truthiness tests (`if x:`, `x or 1`, `prev_line_id and ...`) are
  modelled explicitly: `none` and a zero value are falsy.
* Functions that can raise return `Option`; `none` models an exception.
-/

namespace TrainSys

/-- Row of the stations table (models.py, class Station), restricted to the
columns the route/fare core reads. -/
structure Station where
  id : ℤ
  name : String
  line_id : Option ℤ
  lat : Option ℚ
  long : Option ℚ
  zone_number : Option ℤ
  is_interchange : Bool
  status : String
  deriving DecidableEq

/-- Row of the train_lines table (models.py, class TrainLine). -/
structure TrainLine where
  id : ℤ
  name : String
  status : String
  deriving DecidableEq

/-- Row of the transfer_points table (models.py, class TransferPoint). -/
structure TransferPoint where
  station_a_id : ℤ
  station_b_id : ℤ
  walking_time_minutes : ℤ
  transfer_fee : ℚ
  is_active : Bool
  deriving DecidableEq

/-- Row of the passenger_types table (models.py, class PassengerType). -/
structure PassengerType where
  id : ℤ
  name : String
  discount_percentage : ℚ
  deriving DecidableEq

/-- Fare rule as consumed (duck-typed) by fare_service.py: the service reads
the attributes route_id, fare_type, base_fare, per_zone_fare, per_km_fare and
distance_threshold_km from each FareRule row. -/
structure FareRule where
  route_id : ℤ
  fare_type : String
  base_fare : ℚ
  per_zone_fare : ℚ
  per_km_fare : ℚ
  distance_threshold_km : ℚ
  deriving DecidableEq

/-- A database snapshot: the tables the route/fare core queries. -/
structure DB where
  stations : List Station
  lines : List TrainLine
  transfer_points : List TransferPoint
  passenger_types : List PassengerType
  fare_rules : List FareRule

/-- db.query(Station).filter(Station.id == sid).first() -/
def findStation (db : DB) (sid : ℤ) : Option Station :=
  db.stations.find? (fun s => s.id == sid)

/-- db.query(TrainLine).filter(TrainLine.id == lid).first() -/
def findLine (db : DB) (lid : ℤ) : Option TrainLine :=
  db.lines.find? (fun l => l.id == lid)

/-- db.query(PassengerType).filter(PassengerType.id == pid).first() -/
def findPassengerType (db : DB) (pid : ℤ) : Option PassengerType :=
  db.passenger_types.find? (fun p => p.id == pid)

/-- NetworkNode (routes/schemas.py). -/
structure NetworkNode where
  station_id : ℤ
  station_name : String
  line_id : Option ℤ
  line_name : Option String
  lat : Option ℚ
  long : Option ℚ
  is_interchange : Bool
  deriving DecidableEq

instance : Inhabited NetworkNode :=
  ⟨⟨0, "", none, none, none, none, false⟩⟩

/-- NetworkEdge (routes/schemas.py); transport_type is one of
"train", "walk", "transfer". -/
structure NetworkEdge where
  from_station_id : ℤ
  to_station_id : ℤ
  transport_type : String
  duration_minutes : ℤ
  cost : ℚ
  distance_km : Option ℚ
  line_id : Option ℤ
  transfer_time_minutes : Option ℤ
  deriving DecidableEq

/-- NetworkGraph (routes/service.py). The Python adjacency dict keyed by
from-station is modelled by the flat, insertion-ordered edge list: the
neighbor list of a station is recovered by filtering, which preserves the
per-station insertion order of the dict's lists. -/
structure NetworkGraph where
  nodes : List NetworkNode
  all_edges : List NetworkEdge

/-- NetworkGraph.get_neighbors. -/
def NetworkGraph.get_neighbors (g : NetworkGraph) (sid : ℤ) : List NetworkEdge :=
  g.all_edges.filter (fun e => e.from_station_id == sid)

/-- Lookup self.graph.nodes[sid]; in the built graph every edge endpoint is a
loaded station, so the Python KeyError path is unreachable and the default
value is never produced. -/
def NetworkGraph.getNode (g : NetworkGraph) (sid : ℤ) : NetworkNode :=
  (g.nodes.find? (fun n => n.station_id == sid)).getD default

/-- Conversion of a Station row to a NetworkNode
(_build_network_graph, station loop): line_name is station.line.name when the
line relationship resolves. -/
def stationNode (db : DB) (s : Station) : NetworkNode :=
  { station_id := s.id
    station_name := s.name
    line_id := s.line_id
    line_name := s.line_id.bind (fun lid => (findLine db lid).map (·.name))
    lat := s.lat
    long := s.long
    is_interchange := s.is_interchange }

/-- RouteCalculator._get_base_fare: a flat 15.00 THB for every segment. -/
def getBaseFare (_line_id _from_station_id _to_station_id : ℤ) : ℚ :=
  15

/-- Stations of one line ordered by name
(query .filter(Station.line_id == line.id).order_by(Station.name)); SQL
ORDER BY is modelled as a stable merge sort on the name string. -/
def lineStationsSorted (db : DB) (lid : ℤ) : List Station :=
  (db.stations.filter (fun s => s.line_id == some lid)).mergeSort
    (fun a b => decide (a.name ≤ b.name))

/-- Forward train edge between consecutive stations of a line
(_build_network_graph, lines loop): fixed 3-minute hop, flat base fare. -/
def mkTrainEdge (lid : ℤ) (cur nxt : Station) : NetworkEdge :=
  { from_station_id := cur.id
    to_station_id := nxt.id
    transport_type := "train"
    duration_minutes := 3
    cost := getBaseFare lid cur.id nxt.id
    distance_km := none
    line_id := some lid
    transfer_time_minutes := none }

/-- Edges contributed by one line: for each consecutive pair of its
name-sorted stations, one forward and one reverse train edge. -/
def trainEdgesForLine (db : DB) (line : TrainLine) : List NetworkEdge :=
  let sts := lineStationsSorted db line.id
  (sts.zip sts.tail).flatMap
    (fun p => [mkTrainEdge line.id p.1 p.2, mkTrainEdge line.id p.2 p.1])

/-- Forward transfer edge of an active transfer point
(_build_network_graph, transfers loop). -/
def mkTransferEdge (a b : ℤ) (t : TransferPoint) : NetworkEdge :=
  { from_station_id := a
    to_station_id := b
    transport_type := "transfer"
    duration_minutes := t.walking_time_minutes
    cost := t.transfer_fee
    distance_km := none
    line_id := none
    transfer_time_minutes := some t.walking_time_minutes }

/-- Edges contributed by the active transfer points: one forward and one
reverse transfer edge each. -/
def transferEdges (db : DB) : List NetworkEdge :=
  (db.transfer_points.filter (·.is_active)).flatMap
    (fun t => [mkTransferEdge t.station_a_id t.station_b_id t,
               mkTransferEdge t.station_b_id t.station_a_id t])

/-- RouteCalculator._build_network_graph. -/
def buildNetworkGraph (db : DB) : NetworkGraph :=
  { nodes := db.stations.map (stationNode db)
    all_edges := db.lines.flatMap (trainEdgesForLine db) ++ transferEdges db }

/-- RouteCalculator._calculate_edge_cost: scalar edge weight per
optimization mode. -/
def calculateEdgeCost (edge : NetworkEdge) (optimization : String) : ℚ :=
  let base_time : ℚ := (edge.duration_minutes : ℚ)
  let base_cost : ℚ := edge.cost
  if optimization = "time" then base_time
  else if optimization = "cost" then base_cost
  else if optimization = "transfers" then
    if edge.transport_type = "transfer" then base_time * 5 else base_time
  else base_time + base_cost / 10

/-- One entry of the Dijkstra priority queue
(cost, station, path-so-far, transfers, walking minutes, previous line id). -/
structure SearchState where
  cost : ℚ
  station : ℤ
  path : List NetworkEdge
  transfers : ℤ
  walking_time : ℤ
  prev_line_id : Option ℤ
  deriving DecidableEq

/-- Python truthiness of an optional integer: None and 0 are falsy. -/
def intTruthy : Option ℤ → Bool
  | none => false
  | some z => z != 0

/-- Transfer and walking-minute bookkeeping for traversing one edge
(_dijkstra_shortest_path, lines computing new_transfers and
new_walking_time): a transfer edge adds one transfer and its duration of
walking; a train edge whose line id differs from a truthy previous line id
adds one transfer. -/
def stepCounts (prev_line_id : Option ℤ) (transfers walking_time : ℤ)
    (edge : NetworkEdge) : ℤ × ℤ :=
  if edge.transport_type = "transfer" then
    (transfers + 1, walking_time + edge.duration_minutes)
  else if edge.transport_type = "train" ∧ intTruthy prev_line_id
      ∧ prev_line_id ≠ edge.line_id then
    (transfers + 1, walking_time)
  else (transfers, walking_time)

/-- Tentative-distance dict of the search; assignment prepends, lookup takes
the newest binding, matching Python dict update semantics. -/
def distLookup (d : List (ℤ × ℚ)) (k : ℤ) : Option ℚ :=
  (d.find? (fun p => p.1 == k)).map (·.2)

/-- Mutable accumulator of the neighbor-relaxation loop: pending queue and
tentative distances. -/
structure RelaxAcc where
  pq : List SearchState
  distances : List (ℤ × ℚ)
  deriving DecidableEq

/-- Body of the neighbor loop of _dijkstra_shortest_path: skip visited
targets, compute the successor's cost and counts, drop it if it would exceed
max_transfers or max_walking_time, and enqueue it when it improves the
tentative distance of its target. The Python locals next_station, new_cost
and new_transfers/new_walking_time are written inline. -/
def relaxEdge (optimization : String) (max_transfers max_walking_time : ℤ)
    (visited : List ℤ) (st : SearchState) (acc : RelaxAcc)
    (edge : NetworkEdge) : RelaxAcc :=
  if edge.to_station_id ∈ visited then acc
  else if (stepCounts st.prev_line_id st.transfers st.walking_time edge).1 >
        max_transfers ∨
      (stepCounts st.prev_line_id st.transfers st.walking_time edge).2 >
        max_walking_time then acc
  else if (match distLookup acc.distances edge.to_station_id with
      | none => true
      | some d =>
        decide (st.cost + calculateEdgeCost edge optimization < d)) then
    { pq := acc.pq ++ [⟨st.cost + calculateEdgeCost edge optimization,
        edge.to_station_id, st.path ++ [edge],
        (stepCounts st.prev_line_id st.transfers st.walking_time edge).1,
        (stepCounts st.prev_line_id st.transfers st.walking_time edge).2,
        edge.line_id⟩]
      distances := (edge.to_station_id,
        st.cost + calculateEdgeCost edge optimization) :: acc.distances }
  else acc

/-- Lexicographic (cost, station) key under which the queue is popped. -/
def stateKeyLE (a b : SearchState) : Bool :=
  decide (a.cost < b.cost) ||
    (decide (a.cost = b.cost) && decide (a.station ≤ b.station))

/-- heapq.heappop modelled on a list-valued queue: remove an entry minimal
under the (cost, station) key, preferring the earliest-pushed minimum. -/
def popMin : List SearchState → Option (SearchState × List SearchState)
  | [] => none
  | s :: rest =>
    match popMin rest with
    | none => some (s, rest)
    | some (m, rest') =>
      if stateKeyLE s m then some (s, rest) else some (m, s :: rest')

/-- State of the search loop: queue, visited set, tentative distances. -/
structure DijkstraCfg where
  pq : List SearchState
  visited : List ℤ
  distances : List (ℤ × ℚ)
  deriving DecidableEq

/-- Starting state of the loop: the origin enqueued at cost 0 with no path,
no transfers, no walking and no previous line. -/
def initCfg (start_id : ℤ) : DijkstraCfg :=
  { pq := [⟨0, start_id, [], 0, 0, none⟩]
    visited := []
    distances := [(start_id, 0)] }

/-- Outcome of one iteration of the while-loop of _dijkstra_shortest_path. -/
inductive StepOut where
  | found (path : List NetworkEdge)
  | next (c : DijkstraCfg)
  | exhausted
  deriving DecidableEq

/-- Relaxation of every outgoing edge of the popped station, after it has
been added to the visited set. -/
def relaxNeighbors (g : NetworkGraph) (optimization : String)
    (max_walking_time max_transfers : ℤ) (c : DijkstraCfg)
    (st : SearchState) (rest : List SearchState) : DijkstraCfg :=
  let acc := (g.get_neighbors st.station).foldl
    (relaxEdge optimization max_transfers max_walking_time
      (st.station :: c.visited) st)
    { pq := rest, distances := c.distances }
  { pq := acc.pq, visited := st.station :: c.visited, distances := acc.distances }

/-- Body of one loop iteration after a successful pop: skip visited
stations, stop at the destination, skip relaxation when the popped state
already exceeds a bound, otherwise relax every outgoing edge. -/
def dijkstraStepPop (g : NetworkGraph) (end_id : ℤ) (optimization : String)
    (max_walking_time max_transfers : ℤ) (c : DijkstraCfg)
    (st : SearchState) (rest : List SearchState) : StepOut :=
  if st.station ∈ c.visited then .next { c with pq := rest }
  else if st.station = end_id then .found st.path
  else if st.transfers > max_transfers ∨ st.walking_time > max_walking_time then
    .next { pq := rest, visited := st.station :: c.visited,
            distances := c.distances }
  else
    .next (relaxNeighbors g optimization max_walking_time max_transfers c st rest)

/-- One iteration of the while-loop of _dijkstra_shortest_path. -/
def dijkstraStep (g : NetworkGraph) (end_id : ℤ) (optimization : String)
    (max_walking_time max_transfers : ℤ) (c : DijkstraCfg) : StepOut :=
  match popMin c.pq with
  | none => .exhausted
  | some (st, rest) =>
    dijkstraStepPop g end_id optimization max_walking_time max_transfers c st rest

/-- Fuel-bounded run of the search loop; the Python loop always runs to
queue exhaustion, the fuel only bounds the number of modelled iterations. -/
def dijkstraLoop (g : NetworkGraph) (end_id : ℤ) (optimization : String)
    (max_walking_time max_transfers : ℤ) :
    ℕ → DijkstraCfg → Option (List NetworkEdge)
  | 0, _ => none
  | fuel + 1, c =>
    match dijkstraStep g end_id optimization max_walking_time max_transfers c with
    | .found p => some p
    | .exhausted => none
    | .next c' =>
      dijkstraLoop g end_id optimization max_walking_time max_transfers fuel c'

/-- RouteSegment (routes/schemas.py); timestamps are minutes. -/
structure RouteSegment where
  segment_order : ℤ
  transport_type : String
  from_station_id : ℤ
  from_station_name : String
  to_station_id : ℤ
  to_station_name : String
  line_id : Option ℤ
  line_name : Option String
  line_color : Option String
  duration_minutes : ℤ
  distance_km : Option ℚ
  cost : ℚ
  departure_time : Option ℤ
  arrival_time : Option ℤ
  instructions : String
  platform_info : Option String
  deriving DecidableEq

/-- RouteSummary (routes/schemas.py). -/
structure RouteSummary where
  total_duration_minutes : ℤ
  total_cost : ℚ
  total_distance_km : Option ℚ
  total_transfers : ℤ
  total_walking_time_minutes : ℤ
  departure_time : ℤ
  arrival_time : ℤ
  lines_used : List String
  deriving DecidableEq

/-- RouteOption (routes/schemas.py); the uuid4 route id is modelled as an
opaque constant since no behavior reads it. -/
structure RouteOption where
  route_id : String
  segments : List RouteSegment
  summary : RouteSummary
  optimization_score : ℚ
  carbon_footprint_kg : Option ℚ
  deriving DecidableEq

/-- Rendering of an optional string in a Python f-string. -/
def optStr : Option String → String
  | none => "None"
  | some s => s

/-- RouteCalculator._generate_instructions. -/
def generateInstructions (edge : NetworkEdge)
    (from_station to_station : NetworkNode) : String :=
  if edge.transport_type = "train" then
    "Take " ++ optStr to_station.line_name ++ " from " ++
      from_station.station_name ++ " to " ++ to_station.station_name
  else if edge.transport_type = "transfer" then
    "Walk " ++ toString edge.duration_minutes ++ " minutes from " ++
      from_station.station_name ++ " to " ++ to_station.station_name
  else
    "Travel from " ++ from_station.station_name ++ " to " ++
      to_station.station_name

/-- Python set.add on the list of line ids used. -/
def setAdd (l : List ℤ) (x : ℤ) : List ℤ :=
  if x ∈ l then l else l ++ [x]

/-- Accumulator of the segment-construction loop of
_construct_route_option. -/
structure BuildAcc where
  segments : List RouteSegment
  current_time : ℤ
  total_cost : ℚ
  total_duration : ℤ
  total_transfers : ℤ
  walking_time : ℤ
  lines_used : List ℤ

/-- Segment-construction loop of _construct_route_option: walks the path,
builds one RouteSegment per edge, counts explicit transfer edges and their
walking minutes, accumulates cost, duration and the set of truthy line ids,
and advances the clock by each edge's duration. -/
def buildSegments (g : NetworkGraph) :
    List NetworkEdge → ℕ → BuildAcc → BuildAcc
  | [], _, acc => acc
  | edge :: rest, i, acc =>
    let from_station := g.getNode edge.from_station_id
    let to_station := g.getNode edge.to_station_id
    let acc1 :=
      if edge.transport_type = "transfer" then
        { acc with total_transfers := acc.total_transfers + 1
                   walking_time := acc.walking_time + edge.duration_minutes }
      else acc
    let acc2 :=
      if intTruthy edge.line_id then
        { acc1 with lines_used := setAdd acc1.lines_used (edge.line_id.getD 0) }
      else acc1
    let seg : RouteSegment :=
      { segment_order := (i : ℤ) + 1
        transport_type := edge.transport_type
        from_station_id := edge.from_station_id
        from_station_name := from_station.station_name
        to_station_id := edge.to_station_id
        to_station_name := to_station.station_name
        line_id := edge.line_id
        line_name := to_station.line_name
        line_color := none
        duration_minutes := edge.duration_minutes
        distance_km := edge.distance_km
        cost := edge.cost
        departure_time := some acc.current_time
        arrival_time := some (acc.current_time + edge.duration_minutes)
        instructions := generateInstructions edge from_station to_station
        platform_info := none }
    buildSegments g rest (i + 1)
      { acc2 with segments := acc2.segments ++ [seg]
                  total_cost := acc2.total_cost + edge.cost
                  total_duration := acc2.total_duration + edge.duration_minutes
                  current_time := acc2.current_time + edge.duration_minutes }

/-- RouteCalculator._calculate_optimization_score. -/
def calculateOptimizationScore (summary : RouteSummary)
    (optimization : String) : ℚ :=
  if optimization = "time" then 1000 - (summary.total_duration_minutes : ℚ)
  else if optimization = "cost" then 1000 - summary.total_cost
  else if optimization = "transfers" then
    1000 - (summary.total_transfers : ℚ) * 100
  else (500 - (summary.total_duration_minutes : ℚ) / 2) +
    (500 - summary.total_cost / 2)

/-- RouteCalculator._construct_route_option; now is the value
datetime.now() would return, used when no departure time is given. -/
def constructRouteOption (g : NetworkGraph) (db : DB) (now : ℤ)
    (path : List NetworkEdge) (_start_id _end_id : ℤ)
    (departure_time : Option ℤ) (optimization : String) : RouteOption :=
  let dep := departure_time.getD now
  let acc := buildSegments g path 0 ⟨[], dep, 0, 0, 0, 0, []⟩
  let line_names :=
    (db.lines.filter (fun l => acc.lines_used.contains l.id)).map (·.name)
  let summary : RouteSummary :=
    { total_duration_minutes := acc.total_duration
      total_cost := acc.total_cost
      total_distance_km := none
      total_transfers := acc.total_transfers
      total_walking_time_minutes := acc.walking_time
      departure_time := dep
      arrival_time := dep + acc.total_duration
      lines_used := line_names }
  { route_id := ""
    segments := acc.segments
    summary := summary
    optimization_score := calculateOptimizationScore summary optimization
    carbon_footprint_kg := none }

/-- RouteCalculator._dijkstra_shortest_path: returns none when origin equals
destination or the loop finds no route; the exclude_route argument is
accepted and ignored exactly as in the source. -/
def dijkstraShortestPath (fuel : ℕ) (g : NetworkGraph) (db : DB) (now : ℤ)
    (start_id end_id : ℤ) (optimization : String)
    (max_walking_time max_transfers : ℤ) (departure_time : Option ℤ)
    (_exclude_route : Option RouteOption) : Option RouteOption :=
  if start_id = end_id then none
  else
    (dijkstraLoop g end_id optimization max_walking_time max_transfers fuel
        (initCfg start_id)).map
      (fun p =>
        constructRouteOption g db now p start_id end_id departure_time
          optimization)

/-- RouteRequest (routes/schemas.py). -/
structure RouteRequest where
  from_station_id : ℤ
  to_station_id : ℤ
  departure_time : Option ℤ
  passenger_type_id : ℤ
  optimization : String
  max_walking_time : ℤ
  max_transfers : ℤ

/-- RouteCalculator._is_significantly_different: false iff some accepted
route is within 10 minutes, within 10 currency units and has the same
transfer count. -/
def isSignificantlyDifferent (route : RouteOption)
    (existing_routes : List RouteOption) : Bool :=
  existing_routes.all fun existing =>
    let time_diff :=
      |route.summary.total_duration_minutes - existing.summary.total_duration_minutes|
    let cost_diff := |route.summary.total_cost - existing.summary.total_cost|
    let transfer_diff :=
      |route.summary.total_transfers - existing.summary.total_transfers|
    if time_diff < 10 ∧ cost_diff < 10 ∧ transfer_diff = 0 then false else true

/-- Python list.remove(x): drops the first occurrence of x; none models the
ValueError raised when x is absent. -/
def removeFirst : List String → String → Option (List String)
  | [], _ => none
  | y :: ys, x => if y = x then some ys else (removeFirst ys x).map (y :: ·)

/-- Alternative-generation loop of calculate_route: for each remaining
optimization mode, rerun the search and append the candidate when it is
significantly different from every accepted route, stopping at 3 routes. -/
def altLoop (fuel : ℕ) (g : NetworkGraph) (db : DB) (now : ℤ)
    (req : RouteRequest) (primary : RouteOption) :
    List String → List RouteOption → List RouteOption
  | [], routes => routes
  | alt_opt :: rest, routes =>
    if 3 ≤ routes.length then routes
    else
      match dijkstraShortestPath fuel g db now req.from_station_id
          req.to_station_id alt_opt req.max_walking_time req.max_transfers
          req.departure_time (some primary) with
      | some alt_route =>
        if isSignificantlyDifferent alt_route routes then
          altLoop fuel g db now req primary rest (routes ++ [alt_route])
        else altLoop fuel g db now req primary rest routes
      | none => altLoop fuel g db now req primary rest routes

/-- RouteCalculator.calculate_route; none models the ValueError that
list.remove raises when the requested optimization is not one of the three
known modes (unreachable for a pydantic-validated RouteRequest). -/
def calculateRoute (fuel : ℕ) (g : NetworkGraph) (db : DB) (now : ℤ)
    (req : RouteRequest) : Option (List RouteOption) :=
  match dijkstraShortestPath fuel g db now req.from_station_id
      req.to_station_id req.optimization req.max_walking_time
      req.max_transfers req.departure_time none with
  | none => some []
  | some primary =>
    (removeFirst ["time", "cost", "transfers"] req.optimization).map
      (fun alt_optimizations =>
        altLoop fuel g db now req primary alt_optimizations [primary])

/-- RouteService.plan_route: empty result when either endpoint station is
missing, otherwise delegate to the calculator. -/
def planRoute (fuel : ℕ) (db : DB) (now : ℤ) (req : RouteRequest) :
    Option (List RouteOption) :=
  match findStation db req.from_station_id,
      findStation db req.to_station_id with
  | some _, some _ => calculateRoute fuel (buildNetworkGraph db) db now req
  | _, _ => some []

/-- FareBreakdown (routes/schemas.py). -/
structure FareBreakdown where
  segment_id : ℤ
  segment_type : String
  line_name : Option String
  base_fare : ℚ
  distance_fare : ℚ
  transfer_fee : ℚ
  passenger_discount : ℚ
  segment_total : ℚ
  deriving DecidableEq

/-- FareCalculationService._load_fare_rules: a dict keyed by route_id built
by sequential assignment, so the last rule with a given key wins. -/
def fareRuleLookup (db : DB) (k : ℤ) : Option FareRule :=
  db.fare_rules.reverse.find? (fun r => r.route_id == k)

/-- FareCalculationService._load_passenger_types. -/
def passengerTypeLookup (db : DB) (k : ℤ) : Option PassengerType :=
  db.passenger_types.reverse.find? (fun p => p.id == k)

/-- Python x or 1 applied to an optional zone number: None and 0 give 1. -/
def zoneOrOne : Option ℤ → ℤ
  | none => 1
  | some z => if z = 0 then 1 else z

/-- FareCalculationService._calculate_zone_fare: fare for the zones crossed
beyond the first, free when either station row is missing. -/
def calculateZoneFare (db : DB) (seg : RouteSegment)
    (fare_rule : FareRule) : ℚ :=
  match findStation db seg.from_station_id, findStation db seg.to_station_id with
  | some fs, some ts =>
    let zone_diff := |zoneOrOne fs.zone_number - zoneOrOne ts.zone_number|
    if zone_diff ≤ 1 then 0
    else fare_rule.per_zone_fare * ((zone_diff : ℚ) - 1)
  | _, _ => 0

/-- Python truthiness of an optional coordinate: None and 0 are falsy. -/
def coordTruthy : Option ℚ → Bool
  | none => false
  | some q => q != 0

/-- FareCalculationService._estimate_segment_distance, with the
floating-point haversine formula abstracted as the parameter hav (the source
computes a great-circle estimate with Earth radius 6371 km from the four
coordinates and rounds to two decimals); when a station row or any
coordinate is missing the default 2.0 km is returned. -/
def estimateSegmentDistance (hav : ℚ → ℚ → ℚ → ℚ → ℚ) (db : DB)
    (seg : RouteSegment) : ℚ :=
  match findStation db seg.from_station_id, findStation db seg.to_station_id with
  | some fs, some ts =>
    if coordTruthy fs.lat && coordTruthy fs.long && coordTruthy ts.lat
        && coordTruthy ts.long then
      hav (fs.lat.getD 0) (fs.long.getD 0) (ts.lat.getD 0) (ts.long.getD 0)
    else 2
  | _, _ => 2

/-- FareCalculationService._calculate_distance_based_fare: a truthy
authoritative distance_km is used, otherwise the estimate; only the excess
over the threshold is charged. -/
def calculateDistanceBasedFare (hav : ℚ → ℚ → ℚ → ℚ → ℚ) (db : DB)
    (seg : RouteSegment) (fare_rule : FareRule) : ℚ :=
  let distance :=
    match seg.distance_km with
    | some d => if d ≠ 0 then d else estimateSegmentDistance hav db seg
    | none => estimateSegmentDistance hav db seg
  if distance ≤ fare_rule.distance_threshold_km then 0
  else fare_rule.per_km_fare * (distance - fare_rule.distance_threshold_km)

/-- FareCalculationService._calculate_distance_fare: dispatch on the fare
rule's tariff model. -/
def calculateDistanceFare (hav : ℚ → ℚ → ℚ → ℚ → ℚ) (db : DB)
    (seg : RouteSegment) (fare_rule : FareRule) : ℚ :=
  if fare_rule.fare_type = "zone_based" then calculateZoneFare db seg fare_rule
  else if fare_rule.fare_type = "distance_based" then
    calculateDistanceBasedFare hav db seg fare_rule
  else 0

/-- FareCalculationService._calculate_train_fare. -/
def calculateTrainFare (hav : ℚ → ℚ → ℚ → ℚ → ℚ) (db : DB)
    (seg : RouteSegment) (passenger_type_id segment_id : ℤ) : FareBreakdown :=
  let pair :=
    match seg.line_id.bind (fareRuleLookup db) with
    | none => ((25 : ℚ), (0 : ℚ))
    | some fare_rule =>
      (fare_rule.base_fare, calculateDistanceFare hav db seg fare_rule)
  let discount_percentage :=
    ((passengerTypeLookup db passenger_type_id).map
      (·.discount_percentage)).getD 0
  let subtotal := pair.1 + pair.2
  let discount_amount := subtotal * (discount_percentage / 100)
  { segment_id := segment_id
    segment_type := "train"
    line_name := seg.line_name
    base_fare := pair.1
    distance_fare := pair.2
    transfer_fee := 0
    passenger_discount := discount_amount
    segment_total := subtotal - discount_amount }

/-- Transfer-point lookup of _calculate_transfer_fare, one direction. -/
def findTransferPoint (db : DB) (a b : ℤ) : Option TransferPoint :=
  db.transfer_points.find?
    (fun t => t.station_a_id == a && t.station_b_id == b)

/-- FareCalculationService._calculate_transfer_fare. -/
def calculateTransferFare (db : DB) (seg : RouteSegment)
    (passenger_type_id segment_id : ℤ) : FareBreakdown :=
  let transfer :=
    match findTransferPoint db seg.from_station_id seg.to_station_id with
    | some t => some t
    | none => findTransferPoint db seg.to_station_id seg.from_station_id
  let transfer_fee := (transfer.map (·.transfer_fee)).getD 0
  let discount_percentage :=
    ((passengerTypeLookup db passenger_type_id).map
      (·.discount_percentage)).getD 0
  let discount_amount := transfer_fee * (discount_percentage / 100)
  { segment_id := segment_id
    segment_type := "transfer"
    line_name := none
    base_fare := 0
    distance_fare := 0
    transfer_fee := transfer_fee
    passenger_discount := discount_amount
    segment_total := transfer_fee - discount_amount }

/-- FareCalculationService._calculate_segment_fare: dispatch on the
segment's transport type; anything that is neither train nor transfer is
free. -/
def calculateSegmentFare (hav : ℚ → ℚ → ℚ → ℚ → ℚ) (db : DB)
    (seg : RouteSegment) (passenger_type_id segment_id : ℤ) : FareBreakdown :=
  if seg.transport_type = "train" then
    calculateTrainFare hav db seg passenger_type_id segment_id
  else if seg.transport_type = "transfer" then
    calculateTransferFare db seg passenger_type_id segment_id
  else
    { segment_id := segment_id
      segment_type := seg.transport_type
      line_name := seg.line_name
      base_fare := 0
      distance_fare := 0
      transfer_fee := 0
      passenger_discount := 0
      segment_total := 0 }

/-- RouteValidationError (routes/schemas.py). -/
structure RouteValidationError where
  error_code : String
  error_message : String
  field : Option String
  deriving DecidableEq

/-- RouteValidator.validate_route_request; now is the value datetime.now()
returns during the call, and times are minutes (1 hour = 60,
30 days = 43200). -/
def validateRouteRequest (db : DB) (now : ℤ) (req : RouteRequest) :
    List RouteValidationError :=
  (if req.from_station_id = req.to_station_id then
    [⟨"SAME_STATION", "Origin and destination stations cannot be the same",
      some "to_station_id"⟩]
  else [])
  ++ (match findStation db req.from_station_id with
  | none =>
    [⟨"INVALID_FROM_STATION", "Origin station with ID " ++
      toString req.from_station_id ++ " not found", some "from_station_id"⟩]
  | some s =>
    if s.status ≠ "active" then
      [⟨"STATION_INACTIVE", "Origin station '" ++ s.name ++
        "' is currently inactive", some "from_station_id"⟩]
    else [])
  ++ (match findStation db req.to_station_id with
  | none =>
    [⟨"INVALID_TO_STATION", "Destination station with ID " ++
      toString req.to_station_id ++ " not found", some "to_station_id"⟩]
  | some s =>
    if s.status ≠ "active" then
      [⟨"STATION_INACTIVE", "Destination station '" ++ s.name ++
        "' is currently inactive", some "to_station_id"⟩]
    else [])
  ++ (match findPassengerType db req.passenger_type_id with
  | none =>
    [⟨"INVALID_PASSENGER_TYPE", "Passenger type with ID " ++
      toString req.passenger_type_id ++ " not found",
      some "passenger_type_id"⟩]
  | some _ => [])
  ++ (match req.departure_time with
  | none => []
  | some dep =>
    (if dep < now - 60 then
      [⟨"PAST_DEPARTURE_TIME",
        "Departure time cannot be more than 1 hour in the past",
        some "departure_time"⟩]
    else [])
    ++ (if dep > now + 43200 then
      [⟨"FUTURE_DEPARTURE_TIME",
        "Departure time cannot be more than 30 days in the future",
        some "departure_time"⟩]
    else []))
  ++ (if req.max_walking_time < 1 then
    [⟨"INVALID_WALKING_TIME", "Maximum walking time must be at least 1 minute",
      some "max_walking_time"⟩]
  else if req.max_walking_time > 60 then
    [⟨"EXCESSIVE_WALKING_TIME", "Maximum walking time cannot exceed 60 minutes",
      some "max_walking_time"⟩]
  else [])
  ++ (if req.max_transfers < 0 then
    [⟨"INVALID_TRANSFERS", "Maximum transfers cannot be negative",
      some "max_transfers"⟩]
  else if req.max_transfers > 5 then
    [⟨"EXCESSIVE_TRANSFERS", "Maximum transfers cannot exceed 5",
      some "max_transfers"⟩]
  else [])
  ++ (if req.optimization ∈ ["time", "cost", "transfers"] then []
  else
    [⟨"INVALID_OPTIMIZATION", "Optimization must be one of: time, cost, transfers",
      some "optimization"⟩])

/-- Example edge used by concrete witnesses. -/
def exEdge : NetworkEdge :=
  { from_station_id := 1, to_station_id := 2, transport_type := "train"
    duration_minutes := 3, cost := 15, distance_km := none
    line_id := some 1, transfer_time_minutes := none }
/-- Relation between the running totals of the construction loop and the
segments built so far. -/
def accTotalsOk (acc : BuildAcc) : Prop :=
  acc.total_duration = (acc.segments.map (·.duration_minutes)).sum ∧
  acc.total_cost = (acc.segments.map (·.cost)).sum ∧
  acc.total_transfers =
    ((acc.segments.filter (fun s => s.transport_type == "transfer")).length : ℤ) ∧
  acc.walking_time =
    ((acc.segments.filter (fun s => s.transport_type == "transfer")).map
      (·.duration_minutes)).sum

/-- Modelled from the claim (C9): the (code, field) pairs of all violated
structural checks, one independent block per check, in report order. -/
def expectedViolations (db : DB) (now : ℤ) (req : RouteRequest) :
    List (String × Option String) :=
  (if req.from_station_id = req.to_station_id then
    [("SAME_STATION", some "to_station_id")] else [])
  ++ ((if (findStation db req.from_station_id).isNone then
    [("INVALID_FROM_STATION", some "from_station_id")] else [])
    ++ (if ((findStation db req.from_station_id).map
          (fun s => decide (s.status ≠ "active"))).getD false then
      [("STATION_INACTIVE", some "from_station_id")] else []))
  ++ ((if (findStation db req.to_station_id).isNone then
    [("INVALID_TO_STATION", some "to_station_id")] else [])
    ++ (if ((findStation db req.to_station_id).map
          (fun s => decide (s.status ≠ "active"))).getD false then
      [("STATION_INACTIVE", some "to_station_id")] else []))
  ++ (if (findPassengerType db req.passenger_type_id).isNone then
    [("INVALID_PASSENGER_TYPE", some "passenger_type_id")] else [])
  ++ ((if (req.departure_time.map (fun dep => decide (dep < now - 60))).getD false then
    [("PAST_DEPARTURE_TIME", some "departure_time")] else [])
    ++ (if (req.departure_time.map (fun dep => decide (dep > now + 43200))).getD false then
      [("FUTURE_DEPARTURE_TIME", some "departure_time")] else []))
  ++ ((if req.max_walking_time < 1 then
    [("INVALID_WALKING_TIME", some "max_walking_time")] else [])
    ++ (if req.max_walking_time > 60 then
      [("EXCESSIVE_WALKING_TIME", some "max_walking_time")] else []))
  ++ ((if req.max_transfers < 0 then
    [("INVALID_TRANSFERS", some "max_transfers")] else [])
    ++ (if req.max_transfers > 5 then
      [("EXCESSIVE_TRANSFERS", some "max_transfers")] else []))
  ++ (if req.optimization ∈ ["time", "cost", "transfers"] then []
    else [("INVALID_OPTIMIZATION", some "optimization")])
/-- Modelled from the claim (C5) as stated: the distance a distance-based
rule charges on is the segment's authoritative distance_km if present,
otherwise the estimate (which itself falls back to the fixed default). -/
def claimedSelectedDistance (hav : ℚ → ℚ → ℚ → ℚ → ℚ) (db : DB)
    (seg : RouteSegment) : ℚ :=
  match seg.distance_km with
  | some d => d
  | none => estimateSegmentDistance hav db seg

/-- Modelled from the amended claim (C5): a present distance_km is used only
when it is also nonzero, matching the Python truthiness test. -/
def amendedSelectedDistance (hav : ℚ → ℚ → ℚ → ℚ → ℚ) (db : DB)
    (seg : RouteSegment) : ℚ :=
  match seg.distance_km with
  | some d => if d ≠ 0 then d else estimateSegmentDistance hav db seg
  | none => estimateSegmentDistance hav db seg

/-- Train segment with a present but zero authoritative distance, the input
on which the claim as stated diverges from the code. -/
def cexSeg : RouteSegment :=
  { segment_order := 1, transport_type := "train", from_station_id := 101
    from_station_name := "A", to_station_id := 102, to_station_name := "B"
    line_id := some 7, line_name := none, line_color := none
    duration_minutes := 3, distance_km := some 0, cost := 15
    departure_time := none, arrival_time := none, instructions := ""
    platform_info := none }

/-- Distance-based fare rule: 2 per km beyond a 1 km threshold. -/
def cexRule : FareRule :=
  { route_id := 7, fare_type := "distance_based", base_fare := 20
    per_zone_fare := 0, per_km_fare := 2, distance_threshold_km := 1 }

/-- Database with no stations, so the estimator falls back to 2.0 km. -/
def cexDB : DB :=
  { stations := [], lines := [], transfer_points := []
    passenger_types := [], fare_rules := [cexRule] }

/-- Arbitrary haversine estimator used by concrete fare computations. -/
def hav0 : ℚ → ℚ → ℚ → ℚ → ℚ := fun _ _ _ _ => 0
/-- Passenger type with a full 100 percent discount. -/
def exPT : PassengerType := { id := 1, name := "Promo", discount_percentage := 100 }

/-- Train segment with no line, priced by the default fare rule. -/
def exSegTrain : RouteSegment :=
  { segment_order := 1, transport_type := "train", from_station_id := 1
    from_station_name := "A", to_station_id := 2, to_station_name := "B"
    line_id := none, line_name := none, line_color := none
    duration_minutes := 3, distance_km := none, cost := 15
    departure_time := none, arrival_time := none, instructions := ""
    platform_info := none }

/-- Database holding only the 100-percent-discount passenger type. -/
def exFareDB : DB :=
  { stations := [], lines := [], transfer_points := []
    passenger_types := [exPT], fare_rules := [] }
/-- Walk predicate: the edge list is a chain of graph edges leading from s
to t. -/
def chainFrom (g : NetworkGraph) : ℤ → List NetworkEdge → ℤ → Prop
  | s, [], t => s = t
  | s, e :: p, t =>
    e ∈ g.all_edges ∧ e.from_station_id = s ∧ chainFrom g e.to_station_id p t

/-- Previous-line value the search would carry after traversing a path,
starting from pl. -/
def pathPrevFrom (pl : Option ℤ) : List NetworkEdge → Option ℤ
  | [] => pl
  | e :: p => pathPrevFrom e.line_id p

/-- Transfer and walking totals of a path, folded edge by edge with
stepCounts exactly as the search does. -/
def pathCounts (pl : Option ℤ) (t w : ℤ) : List NetworkEdge → ℤ × ℤ
  | [] => (t, w)
  | e :: p =>
    pathCounts e.line_id (stepCounts pl t w e).1 (stepCounts pl t w e).2 p

/-- Existence of a nonempty walk from start to destination whose final
transfer and walking totals satisfy the request bounds. -/
def constrainedPathExists (g : NetworkGraph)
    (start_id end_id max_transfers max_walking_time : ℤ) : Prop :=
  ∃ p, p ≠ [] ∧ chainFrom g start_id p end_id ∧
    (pathCounts none 0 0 p).1 ≤ max_transfers ∧
    (pathCounts none 0 0 p).2 ≤ max_walking_time

/-- Invariant of one queue entry of the search: its path is a walk from the
origin to its station, its counts are the path's counts, its previous-line
field is the path's last line id, and any non-initial entry satisfies both
request bounds. -/
def stateOK (g : NetworkGraph)
    (start_id max_transfers max_walking_time : ℤ) (st : SearchState) : Prop :=
  chainFrom g start_id st.path st.station ∧
  (st.transfers, st.walking_time) = pathCounts none 0 0 st.path ∧
  st.prev_line_id = pathPrevFrom none st.path ∧
  (st.path = [] → st.station = start_id) ∧
  (st.path ≠ [] →
    st.transfers ≤ max_transfers ∧ st.walking_time ≤ max_walking_time)

/-- One observable step of the search loop, leaving the state unchanged when
the loop would stop. -/
def runNext (g : NetworkGraph) (end_id : ℤ) (optimization : String)
    (max_walking_time max_transfers : ℤ) (c : DijkstraCfg) : DijkstraCfg :=
  match dijkstraStep g end_id optimization max_walking_time max_transfers c with
  | .next c' => c'
  | _ => c

/-- n observable steps of the search loop. -/
def runN (g : NetworkGraph) (end_id : ℤ) (optimization : String)
    (max_walking_time max_transfers : ℤ) : ℕ → DijkstraCfg → DijkstraCfg
  | 0, c => c
  | n + 1, c =>
    runN g end_id optimization max_walking_time max_transfers n
      (runNext g end_id optimization max_walking_time max_transfers c)

/-- Modelled from the claim (C3): a candidate is accepted only when, against
every already-accepted option, it differs by at least 10 minutes of total
duration, or at least 10 currency units of total cost, or in transfer
count. -/
def specAccept (cand : RouteOption) (accepted : List RouteOption) : Prop :=
  ∀ r ∈ accepted,
    10 ≤ |cand.summary.total_duration_minutes - r.summary.total_duration_minutes| ∨
    10 ≤ |cand.summary.total_cost - r.summary.total_cost| ∨
    cand.summary.total_transfers ≠ r.summary.total_transfers

instance (cand : RouteOption) (accepted : List RouteOption) :
    Decidable (specAccept cand accepted) :=
  List.decidableBAll _ accepted

/-- Modelled from the claim (C3): fold over the remaining optimization
modes, appending each produced candidate exactly when specAccept holds
against every accepted option, stopping at 3 options. -/
def specAltFold (fuel : ℕ) (g : NetworkGraph) (db : DB) (now : ℤ)
    (req : RouteRequest) (primary : RouteOption) :
    List String → List RouteOption → List RouteOption
  | [], acc => acc
  | m :: rest, acc =>
    if 3 ≤ acc.length then acc
    else
      match dijkstraShortestPath fuel g db now req.from_station_id
          req.to_station_id m req.max_walking_time req.max_transfers
          req.departure_time (some primary) with
      | some cand =>
        if specAccept cand acc then
          specAltFold fuel g db now req primary rest (acc ++ [cand])
        else specAltFold fuel g db now req primary rest acc
      | none => specAltFold fuel g db now req primary rest acc

/-- Modelled from the claim (C3): the primary search result followed by the
alternatives accepted from the two remaining optimization modes. -/
def specRoutes (fuel : ℕ) (g : NetworkGraph) (db : DB) (now : ℤ)
    (req : RouteRequest) : List RouteOption :=
  match dijkstraShortestPath fuel g db now req.from_station_id
      req.to_station_id req.optimization req.max_walking_time
      req.max_transfers req.departure_time none with
  | none => []
  | some primary =>
    specAltFold fuel g db now req primary
      ((["time", "cost", "transfers"] : List String).erase req.optimization)
      [primary]
/-- Initial state of the queue, used by the concrete witness. -/
def st0 : SearchState := ⟨0, 1, [], 0, 0, none⟩

/-- Empty graph used by concrete witnesses. -/
def emptyGraph : NetworkGraph := ⟨[], []⟩
/-- Same-endpoint request used by the concrete witness. -/
def reqSame : RouteRequest := ⟨1, 1, none, 1, "time", 10, 3⟩
/-- Distinct-endpoint request used by the concrete witness. -/
def exReq : RouteRequest := ⟨1, 2, none, 1, "time", 10, 3⟩

/-! Theorems. -/

/-- C1: for every edge and optimization mode, the scalar cost assigned by
the search is: mode "time" gives the edge's duration; mode "cost" gives the
edge's fare; mode "transfers" gives the duration multiplied by 5 for
transfer-type edges and the plain duration otherwise; any other mode gives
duration + fare/10. -/
theorem C1_edge_cost (edge : NetworkEdge) :
    calculateEdgeCost edge "time" = (edge.duration_minutes : ℚ) ∧
    calculateEdgeCost edge "cost" = edge.cost ∧
    calculateEdgeCost edge "transfers" =
      (if edge.transport_type = "transfer" then (edge.duration_minutes : ℚ) * 5
       else (edge.duration_minutes : ℚ)) ∧
    (∀ mode : String, mode ∉ (["time", "cost", "transfers"] : List String) →
      calculateEdgeCost edge mode = (edge.duration_minutes : ℚ) + edge.cost / 10) := by
  refine ⟨rfl, rfl, rfl, ?_⟩
  intro mode hm
  simp only [List.mem_cons, List.mem_singleton, not_or] at hm
  obtain ⟨h1, h2, h3, -⟩ := hm
  simp [calculateEdgeCost, h1, h2, h3]


/-- Witness for C1 at a concrete edge and the fallback mode "balanced". -/
theorem C1_edge_cost_witness :
    ("balanced" : String) ∉ (["time", "cost", "transfers"] : List String) ∧
    calculateEdgeCost exEdge "balanced" =
      (exEdge.duration_minutes : ℚ) + exEdge.cost / 10 :=
  ⟨by decide, (C1_edge_cost exEdge).2.2.2 "balanced" (by decide)⟩

lemma buildSegments_totals (g : NetworkGraph) (path : List NetworkEdge) :
    ∀ i acc, accTotalsOk acc → accTotalsOk (buildSegments g path i acc) := by
  induction path with
  | nil => intro i acc h; exact h
  | cons e rest ih =>
    intro i acc h
    obtain ⟨hd, hc, ht, hw⟩ := h
    by_cases he : e.transport_type = "transfer" <;>
      by_cases hl : intTruthy e.line_id <;>
      · refine ih (i + 1) _ ?_
        refine ⟨?_, ?_, ?_, ?_⟩ <;>
          simp [buildSegments, accTotalsOk, he, hl, hd, hc, ht, hw,
            List.filter_append, List.map_append]

/-- C4: for every RouteOption built by the route calculator, the summary's
total_duration_minutes is the sum of the segments' durations, total_cost is
the sum of the segments' costs, and arrival_time is departure_time plus
total_duration_minutes. -/
theorem C4_summary_totals (g : NetworkGraph) (db : DB) (now : ℤ)
    (path : List NetworkEdge) (start_id end_id : ℤ)
    (departure_time : Option ℤ) (optimization : String) :
    (constructRouteOption g db now path start_id end_id departure_time
        optimization).summary.total_duration_minutes =
      (((constructRouteOption g db now path start_id end_id departure_time
        optimization).segments.map (·.duration_minutes)).sum) ∧
    (constructRouteOption g db now path start_id end_id departure_time
        optimization).summary.total_cost =
      (((constructRouteOption g db now path start_id end_id departure_time
        optimization).segments.map (·.cost)).sum) ∧
    (constructRouteOption g db now path start_id end_id departure_time
        optimization).summary.arrival_time =
      (constructRouteOption g db now path start_id end_id departure_time
        optimization).summary.departure_time +
      (constructRouteOption g db now path start_id end_id departure_time
        optimization).summary.total_duration_minutes := by
  have h := buildSegments_totals g path 0
    ⟨[], departure_time.getD now, 0, 0, 0, 0, []⟩
    (by simp [accTotalsOk])
  obtain ⟨hd, hc, -, -⟩ := h
  exact ⟨by simpa [constructRouteOption] using hd,
    by simpa [constructRouteOption] using hc,
    by simp [constructRouteOption]⟩

/-- C10: for every RouteOption built by the route calculator, the summary's
total_transfers is exactly the number of transfer-type segments (implicit
line changes are not counted here), and total_walking_time_minutes is the
sum of the durations of exactly those transfer segments. -/
theorem C10_transfer_segments (g : NetworkGraph) (db : DB) (now : ℤ)
    (path : List NetworkEdge) (start_id end_id : ℤ)
    (departure_time : Option ℤ) (optimization : String) :
    (constructRouteOption g db now path start_id end_id departure_time
        optimization).summary.total_transfers =
      (((constructRouteOption g db now path start_id end_id departure_time
        optimization).segments.filter
          (fun s => s.transport_type == "transfer")).length : ℤ) ∧
    (constructRouteOption g db now path start_id end_id departure_time
        optimization).summary.total_walking_time_minutes =
      ((((constructRouteOption g db now path start_id end_id departure_time
        optimization).segments.filter
          (fun s => s.transport_type == "transfer")).map
            (·.duration_minutes)).sum) := by
  have h := buildSegments_totals g path 0
    ⟨[], departure_time.getD now, 0, 0, 0, 0, []⟩
    (by simp [accTotalsOk])
  obtain ⟨-, -, ht, hw⟩ := h
  exact ⟨by simpa [constructRouteOption] using ht,
    by simpa [constructRouteOption] using hw⟩


/-- C9: validate_route_request reports, as structured (code, field) records
and without short-circuiting, exactly the violated structural checks — same
origin and destination, missing or inactive endpoint stations, unknown
passenger type, departure time outside the window from one hour in the past
to 30 days in the future, walking-time bound outside 1..60, transfer bound
outside 0..5, unknown optimization mode — and returns the empty list when no
check is violated. -/
theorem C9_validation (db : DB) (now : ℤ) (req : RouteRequest) :
    (validateRouteRequest db now req).map (fun e => (e.error_code, e.field)) =
      expectedViolations db now req ∧
    (validateRouteRequest db now req = [] ↔
      expectedViolations db now req = []) := by
  have main : (validateRouteRequest db now req).map
      (fun e => (e.error_code, e.field)) = expectedViolations db now req := by
    unfold validateRouteRequest expectedViolations
    simp only [List.map_append]
    refine congrArg₂ (· ++ ·)
      (congrArg₂ (· ++ ·)
        (congrArg₂ (· ++ ·)
          (congrArg₂ (· ++ ·)
            (congrArg₂ (· ++ ·)
              (congrArg₂ (· ++ ·)
                (congrArg₂ (· ++ ·) ?_ ?_) ?_) ?_) ?_) ?_) ?_) ?_
    · split <;> simp
    · rcases h : findStation db req.from_station_id with _ | s
      · simp [h]
      · by_cases hs : s.status = "active" <;> simp [h, hs]
    · rcases h : findStation db req.to_station_id with _ | s
      · simp [h]
      · by_cases hs : s.status = "active" <;> simp [h, hs]
    · rcases h : findPassengerType db req.passenger_type_id with _ | p <;>
        simp [h]
    · rcases h : req.departure_time with _ | dep
      · simp
      · by_cases h1 : dep < now - 60 <;> by_cases h2 : dep > now + 43200 <;>
          simp [h1, h2]
    · by_cases h1 : req.max_walking_time < 1 <;>
        by_cases h2 : req.max_walking_time > 60 <;>
        first
        | exact absurd h2 (by omega)
        | simp [h1, h2]
    · by_cases h1 : req.max_transfers < 0 <;>
        by_cases h2 : req.max_transfers > 5 <;>
        first
        | exact absurd h2 (by omega)
        | simp [h1, h2]
    · split <;> simp
  refine ⟨main, ?_⟩
  rw [← main]
  simp


/-- Counterexample to C5 as stated: on a segment whose distance_km is
present but equal to 0, the code discards it (Python truthiness), estimates
the distance as the 2.0 km default and charges 2, while the claim's formula,
which uses any present distance_km, charges 0. -/
theorem C5_distance_fare_cex :
    calculateDistanceFare hav0 cexDB cexSeg cexRule = 2 ∧
    cexRule.per_km_fare *
      max 0 (claimedSelectedDistance hav0 cexDB cexSeg -
        cexRule.distance_threshold_km) = 0 := by
  have hest : estimateSegmentDistance hav0 cexDB cexSeg = 2 := rfl
  have hsel : amendedSelectedDistance hav0 cexDB cexSeg = 2 := by
    show (if (0 : ℚ) ≠ 0 then (0 : ℚ)
      else estimateSegmentDistance hav0 cexDB cexSeg) = 2
    rw [if_neg (by norm_num)]
    exact hest
  constructor
  · unfold calculateDistanceFare
    rw [if_neg (by decide), if_pos (by decide)]
    show (if amendedSelectedDistance hav0 cexDB cexSeg ≤ (1 : ℚ) then (0 : ℚ)
      else 2 * (amendedSelectedDistance hav0 cexDB cexSeg - 1)) = 2
    rw [hsel, if_neg (by norm_num)]
    norm_num
  · show (2 : ℚ) * max 0 ((0 : ℚ) - 1) = 0
    rw [max_eq_left (by norm_num), mul_zero]

/-- C5 (amended): the distance-derived fare component is, under a
zone-based rule, per_zone_fare × max(0, zone_diff − 1) with zone_diff the
absolute difference of the stations' zone numbers where a missing or zero
zone number defaults to 1; under a distance-based rule,
per_km_fare × max(0, distance − threshold), where the distance is the
segment's distance_km when present and nonzero, otherwise the abstracted
haversine estimate from station coordinates, otherwise the fixed 2.0 km
default; and 0 under any other fare type. -/
theorem C5_distance_fare_amended (hav : ℚ → ℚ → ℚ → ℚ → ℚ) (db : DB)
    (seg : RouteSegment) (rule : FareRule) :
    (rule.fare_type = "zone_based" → ∀ fs ts,
      findStation db seg.from_station_id = some fs →
      findStation db seg.to_station_id = some ts →
      calculateDistanceFare hav db seg rule =
        rule.per_zone_fare *
          max 0 (((|zoneOrOne fs.zone_number - zoneOrOne ts.zone_number| : ℤ) : ℚ) - 1)) ∧
    (rule.fare_type = "distance_based" →
      calculateDistanceFare hav db seg rule =
        rule.per_km_fare *
          max 0 (amendedSelectedDistance hav db seg -
            rule.distance_threshold_km)) ∧
    (rule.fare_type ∉ (["zone_based", "distance_based"] : List String) →
      calculateDistanceFare hav db seg rule = 0) := by
  refine ⟨?_, ?_, ?_⟩
  · intro hz fs ts hf ht
    unfold calculateDistanceFare
    rw [if_pos hz]
    have hzf : calculateZoneFare db seg rule =
        if |zoneOrOne fs.zone_number - zoneOrOne ts.zone_number| ≤ 1 then (0 : ℚ)
        else rule.per_zone_fare *
          (((|zoneOrOne fs.zone_number - zoneOrOne ts.zone_number| : ℤ) : ℚ) - 1) := by
      unfold calculateZoneFare
      rw [hf, ht]
    rw [hzf]
    by_cases hle : |zoneOrOne fs.zone_number - zoneOrOne ts.zone_number| ≤ 1
    · rw [if_pos hle]
      have hc : (((|zoneOrOne fs.zone_number - zoneOrOne ts.zone_number| : ℤ) : ℚ)) ≤ 1 := by
        exact_mod_cast hle
      rw [max_eq_left (by linarith), mul_zero]
    · rw [if_neg hle]
      have h2 : (2 : ℤ) ≤ |zoneOrOne fs.zone_number - zoneOrOne ts.zone_number| := by
        omega
      have hc : (2 : ℚ) ≤ (((|zoneOrOne fs.zone_number - zoneOrOne ts.zone_number| : ℤ) : ℚ)) := by
        exact_mod_cast h2
      rw [max_eq_right (by linarith)]
  · intro hd
    have hne : ¬ rule.fare_type = "zone_based" := by rw [hd]; decide
    unfold calculateDistanceFare
    rw [if_neg hne, if_pos hd]
    show (if amendedSelectedDistance hav db seg ≤ rule.distance_threshold_km
        then (0 : ℚ)
        else rule.per_km_fare *
          (amendedSelectedDistance hav db seg - rule.distance_threshold_km)) = _
    by_cases hle :
      amendedSelectedDistance hav db seg ≤ rule.distance_threshold_km
    · rw [if_pos hle, max_eq_left (by linarith), mul_zero]
    · rw [if_neg hle, max_eq_right (by linarith)]
  · intro hmem
    simp only [List.mem_cons, List.mem_singleton, not_or] at hmem
    unfold calculateDistanceFare
    rw [if_neg hmem.1, if_neg hmem.2.1]

/-- Witness for the amended C5 on the concrete distance-based inputs. -/
theorem C5_distance_fare_amended_witness :
    cexRule.fare_type = "distance_based" ∧
    calculateDistanceFare hav0 cexDB cexSeg cexRule =
      cexRule.per_km_fare *
        max 0 (amendedSelectedDistance hav0 cexDB cexSeg -
          cexRule.distance_threshold_km) :=
  ⟨rfl, (C5_distance_fare_amended hav0 cexDB cexSeg cexRule).2.1 rfl⟩

/-- C6: for every priced train or transfer segment and passenger type with
discount d, the breakdown satisfies passenger_discount = subtotal × d / 100
and segment_total = subtotal − passenger_discount, where subtotal is
base_fare + distance_fare for a train segment and the transfer fee for a
transfer segment; consequently
segment_total = base_fare + distance_fare + transfer_fee − passenger_discount
in every such breakdown, and with d = 100 the segment_total is 0. -/
theorem C6_passenger_discount (hav : ℚ → ℚ → ℚ → ℚ → ℚ) (db : DB)
    (seg : RouteSegment) (pid sid : ℤ) (pt : PassengerType)
    (hpt : passengerTypeLookup db pid = some pt) :
    (seg.transport_type = "train" →
      (calculateSegmentFare hav db seg pid sid).transfer_fee = 0 ∧
      (calculateSegmentFare hav db seg pid sid).passenger_discount =
        ((calculateSegmentFare hav db seg pid sid).base_fare +
          (calculateSegmentFare hav db seg pid sid).distance_fare) *
          (pt.discount_percentage / 100) ∧
      (calculateSegmentFare hav db seg pid sid).segment_total =
        (calculateSegmentFare hav db seg pid sid).base_fare +
        (calculateSegmentFare hav db seg pid sid).distance_fare +
        (calculateSegmentFare hav db seg pid sid).transfer_fee -
        (calculateSegmentFare hav db seg pid sid).passenger_discount) ∧
    (seg.transport_type = "transfer" →
      (calculateSegmentFare hav db seg pid sid).base_fare = 0 ∧
      (calculateSegmentFare hav db seg pid sid).distance_fare = 0 ∧
      (calculateSegmentFare hav db seg pid sid).passenger_discount =
        (calculateSegmentFare hav db seg pid sid).transfer_fee *
          (pt.discount_percentage / 100) ∧
      (calculateSegmentFare hav db seg pid sid).segment_total =
        (calculateSegmentFare hav db seg pid sid).base_fare +
        (calculateSegmentFare hav db seg pid sid).distance_fare +
        (calculateSegmentFare hav db seg pid sid).transfer_fee -
        (calculateSegmentFare hav db seg pid sid).passenger_discount) ∧
    (pt.discount_percentage = 100 →
      (seg.transport_type = "train" ∨ seg.transport_type = "transfer") →
      (calculateSegmentFare hav db seg pid sid).segment_total = 0) := by
  have h100 : (100 : ℚ) / 100 = 1 := by norm_num
  have hd0 : ((passengerTypeLookup db pid).map (·.discount_percentage)).getD 0 =
      pt.discount_percentage := by rw [hpt]; rfl
  have htf : (calculateTrainFare hav db seg pid sid).transfer_fee = 0 := rfl
  have hpd : (calculateTrainFare hav db seg pid sid).passenger_discount =
      ((calculateTrainFare hav db seg pid sid).base_fare +
        (calculateTrainFare hav db seg pid sid).distance_fare) *
        (((passengerTypeLookup db pid).map (·.discount_percentage)).getD 0 / 100) := rfl
  rw [hd0] at hpd
  have hst : (calculateTrainFare hav db seg pid sid).segment_total =
      ((calculateTrainFare hav db seg pid sid).base_fare +
        (calculateTrainFare hav db seg pid sid).distance_fare) -
        (calculateTrainFare hav db seg pid sid).passenger_discount := rfl
  have hbf2 : (calculateTransferFare db seg pid sid).base_fare = 0 := rfl
  have hdf2 : (calculateTransferFare db seg pid sid).distance_fare = 0 := rfl
  have hpd2 : (calculateTransferFare db seg pid sid).passenger_discount =
      (calculateTransferFare db seg pid sid).transfer_fee *
        (((passengerTypeLookup db pid).map (·.discount_percentage)).getD 0 / 100) := rfl
  rw [hd0] at hpd2
  have hst2 : (calculateTransferFare db seg pid sid).segment_total =
      (calculateTransferFare db seg pid sid).transfer_fee -
        (calculateTransferFare db seg pid sid).passenger_discount := rfl
  refine ⟨?_, ?_, ?_⟩
  · intro htype
    have hsf : calculateSegmentFare hav db seg pid sid =
        calculateTrainFare hav db seg pid sid := by
      unfold calculateSegmentFare
      rw [if_pos htype]
    rw [hsf]
    exact ⟨htf, hpd, by rw [hst, htf, add_zero]⟩
  · intro htype
    have hne : ¬ seg.transport_type = "train" := by rw [htype]; decide
    have hsf : calculateSegmentFare hav db seg pid sid =
        calculateTransferFare db seg pid sid := by
      unfold calculateSegmentFare
      rw [if_neg hne, if_pos htype]
    rw [hsf]
    exact ⟨hbf2, hdf2, hpd2, by rw [hst2, hbf2, hdf2, zero_add, zero_add]⟩
  · intro hd htypes
    rcases htypes with htype | htype
    · have hsf : calculateSegmentFare hav db seg pid sid =
          calculateTrainFare hav db seg pid sid := by
        unfold calculateSegmentFare
        rw [if_pos htype]
      rw [hsf, hst, hpd, hd, h100, mul_one, sub_self]
    · have hne : ¬ seg.transport_type = "train" := by rw [htype]; decide
      have hsf : calculateSegmentFare hav db seg pid sid =
          calculateTransferFare db seg pid sid := by
        unfold calculateSegmentFare
        rw [if_neg hne, if_pos htype]
      rw [hsf, hst2, hpd2, hd, h100, mul_one, sub_self]


/-- Witness for C6 at a concrete full-discount passenger type: the priced
train segment's total is 0. -/
theorem C6_passenger_discount_witness :
    passengerTypeLookup exFareDB 1 = some exPT ∧
    (calculateSegmentFare hav0 exFareDB exSegTrain 1 1).segment_total = 0 :=
  ⟨rfl, (C6_passenger_discount hav0 exFareDB exSegTrain 1 1 exPT rfl).2.2 rfl
    (Or.inl rfl)⟩

lemma mem_zip_tail {α : Type} {l : List α} {a b : α} :
    (a, b) ∈ l.zip l.tail ↔ ∃ n, l[n]? = some a ∧ l[n + 1]? = some b := by
  induction l with
  | nil => simp
  | cons x xs ih =>
    cases xs with
    | nil => simp
    | cons y ys =>
      constructor
      · intro h
        rcases List.mem_cons.mp h with h | h
        · simp only [Prod.mk.injEq] at h
          obtain ⟨rfl, rfl⟩ := h
          exact ⟨0, by simp, by simp⟩
        · obtain ⟨n, h1, h2⟩ := ih.mp h
          exact ⟨n + 1, by simpa using h1, by simpa using h2⟩
      · rintro ⟨n, h1, h2⟩
        cases n with
        | zero =>
          simp only [List.getElem?_cons_zero, List.getElem?_cons_succ,
            Option.some.injEq] at h1 h2
          subst h1
          subst h2
          exact List.mem_cons_self _ _
        | succ n =>
          exact List.mem_cons_of_mem _
            (ih.mpr ⟨n, by simpa using h1, by simpa using h2⟩)

lemma mem_trainEdgesForLine {db : DB} {line : TrainLine} {e : NetworkEdge} :
    e ∈ trainEdgesForLine db line ↔
      ∃ a b, (∃ n, (lineStationsSorted db line.id)[n]? = some a ∧
          (lineStationsSorted db line.id)[n + 1]? = some b) ∧
        (e = mkTrainEdge line.id a b ∨ e = mkTrainEdge line.id b a) := by
  unfold trainEdgesForLine
  simp only [List.mem_flatMap, Prod.exists, List.mem_cons,
    List.not_mem_nil, or_false, List.mem_singleton]
  constructor
  · rintro ⟨a, b, hab, he⟩
    exact ⟨a, b, mem_zip_tail.mp hab, he⟩
  · rintro ⟨a, b, hn, he⟩
    exact ⟨a, b, mem_zip_tail.mpr hn, he⟩

lemma mem_transferEdges {db : DB} {e : NetworkEdge} :
    e ∈ transferEdges db ↔ ∃ t ∈ db.transfer_points, t.is_active ∧
      (e = mkTransferEdge t.station_a_id t.station_b_id t ∨
        e = mkTransferEdge t.station_b_id t.station_a_id t) := by
  unfold transferEdges
  simp only [List.mem_flatMap, List.mem_filter, List.mem_cons,
    List.not_mem_nil, or_false, List.mem_singleton]
  constructor
  · rintro ⟨t, ⟨ht, ha⟩, he⟩
    exact ⟨t, ht, ha, he⟩
  · rintro ⟨t, ht, ha, he⟩
    exact ⟨t, ⟨ht, ha⟩, he⟩

/-- C8: the built graph's edges are exactly: for every line, one forward and
one reverse train edge (3-minute hop, flat 15.00 fare) for every consecutive
pair of that line's stations in alphabetical order of station name, plus one
forward and one reverse transfer edge for every active transfer point
carrying its walking time and transfer fee; the per-line station list is
name-sorted and is a permutation of exactly that line's stations. -/
theorem C8_graph_edges (db : DB) :
    (∀ e, e ∈ (buildNetworkGraph db).all_edges ↔
      ((∃ line ∈ db.lines, ∃ a b,
          (∃ n, (lineStationsSorted db line.id)[n]? = some a ∧
            (lineStationsSorted db line.id)[n + 1]? = some b) ∧
          (e = mkTrainEdge line.id a b ∨ e = mkTrainEdge line.id b a)) ∨
       (∃ t ∈ db.transfer_points, t.is_active ∧
          (e = mkTransferEdge t.station_a_id t.station_b_id t ∨
           e = mkTransferEdge t.station_b_id t.station_a_id t)))) ∧
    (∀ lid, (lineStationsSorted db lid).Pairwise (fun a b => a.name ≤ b.name) ∧
      (lineStationsSorted db lid).Perm
        (db.stations.filter (fun s => s.line_id == some lid))) ∧
    (∀ lid a b, mkTrainEdge lid a b =
      ⟨a.id, b.id, "train", 3, 15, none, some lid, none⟩) ∧
    (∀ a b t, mkTransferEdge a b t =
      ⟨a, b, "transfer", t.walking_time_minutes, t.transfer_fee, none, none,
        some t.walking_time_minutes⟩) := by
  refine ⟨?_, ?_, fun lid a b => rfl, fun a b t => rfl⟩
  · intro e
    unfold buildNetworkGraph
    simp only [List.mem_append, List.mem_flatMap]
    constructor
    · rintro (⟨line, hline, he⟩ | he)
      · exact Or.inl ⟨line, hline, mem_trainEdgesForLine.mp he⟩
      · exact Or.inr (mem_transferEdges.mp he)
    · rintro (⟨line, hline, he⟩ | he)
      · exact Or.inl ⟨line, hline, mem_trainEdgesForLine.mpr he⟩
      · exact Or.inr (mem_transferEdges.mpr he)
  · intro lid
    constructor
    · have hs := @List.sorted_mergeSort Station
        (fun a b : Station => decide (a.name ≤ b.name))
        (fun a b c hab hbc => by
          simp only [decide_eq_true_eq] at hab hbc ⊢
          exact le_trans hab hbc)
        (fun a b => by
          simp only [Bool.or_eq_true, decide_eq_true_eq]
          exact le_total a.name b.name)
        (db.stations.filter (fun s => s.line_id == some lid))
      exact hs.imp (fun h => by simpa using h)
    · exact List.mergeSort_perm _ _


lemma chainFrom_append (g : NetworkGraph) (e : NetworkEdge)
    (he : e ∈ g.all_edges) :
    ∀ (p : List NetworkEdge) (s m : ℤ), chainFrom g s p m →
      e.from_station_id = m → chainFrom g s (p ++ [e]) e.to_station_id := by
  intro p
  induction p with
  | nil =>
    intro s m h hf
    exact ⟨he, hf.trans h.symm, rfl⟩
  | cons x xs ih =>
    intro s m h hf
    exact ⟨h.1, h.2.1, ih _ _ h.2.2 hf⟩

lemma pathPrevFrom_append (e : NetworkEdge) :
    ∀ (p : List NetworkEdge) (pl : Option ℤ),
      pathPrevFrom pl (p ++ [e]) = e.line_id := by
  intro p
  induction p with
  | nil => intro pl; rfl
  | cons x xs ih => intro pl; exact ih _

lemma pathCounts_append (e : NetworkEdge) :
    ∀ (p : List NetworkEdge) (pl : Option ℤ) (t w : ℤ),
      pathCounts pl t w (p ++ [e]) =
        stepCounts (pathPrevFrom pl p) (pathCounts pl t w p).1
          (pathCounts pl t w p).2 e := by
  intro p
  induction p with
  | nil => intro pl t w; rfl
  | cons x xs ih => intro pl t w; exact ih _ _ _

lemma popMin_mem : ∀ {l : List SearchState} {st : SearchState}
    {rest : List SearchState}, popMin l = some (st, rest) →
    st ∈ l ∧ ∀ x ∈ rest, x ∈ l := by
  intro l
  induction l with
  | nil => intro st rest h; cases h
  | cons s ss ih =>
    intro st rest h
    unfold popMin at h
    split at h
    · simp only [Option.some.injEq, Prod.mk.injEq] at h
      obtain ⟨rfl, rfl⟩ := h
      exact ⟨List.mem_cons_self _ _, fun x hx => List.mem_cons_of_mem _ hx⟩
    · rename_i m rest' hm
      obtain ⟨hmem, hsub⟩ := ih hm
      split at h <;>
        simp only [Option.some.injEq, Prod.mk.injEq] at h <;>
        obtain ⟨rfl, rfl⟩ := h
      · exact ⟨List.mem_cons_self _ _, fun x hx => List.mem_cons_of_mem _ hx⟩
      · refine ⟨List.mem_cons_of_mem _ hmem, fun x hx => ?_⟩
        rcases List.mem_cons.mp hx with rfl | hx
        · exact List.mem_cons_self _ _
        · exact List.mem_cons_of_mem _ (hsub x hx)

lemma relaxEdge_pq {optimization : String}
    {max_transfers max_walking_time : ℤ} {visited : List ℤ}
    {st : SearchState} {acc : RelaxAcc} {e : NetworkEdge} :
    ∀ x ∈ (relaxEdge optimization max_transfers max_walking_time visited st
        acc e).pq,
      x ∈ acc.pq ∨
      (x = ⟨st.cost + calculateEdgeCost e optimization, e.to_station_id,
          st.path ++ [e],
          (stepCounts st.prev_line_id st.transfers st.walking_time e).1,
          (stepCounts st.prev_line_id st.transfers st.walking_time e).2,
          e.line_id⟩ ∧
        (stepCounts st.prev_line_id st.transfers st.walking_time e).1 ≤
          max_transfers ∧
        (stepCounts st.prev_line_id st.transfers st.walking_time e).2 ≤
          max_walking_time) := by
  intro x hx
  unfold relaxEdge at hx
  split at hx
  · exact Or.inl hx
  · split at hx
    · exact Or.inl hx
    · split at hx
      · rcases List.mem_append.mp hx with h | h
        · exact Or.inl h
        · refine Or.inr ⟨List.mem_singleton.mp h, ?_, ?_⟩ <;> omega
      · exact Or.inl hx

lemma foldl_relax_ok {g : NetworkGraph}
    {start_id max_transfers max_walking_time : ℤ} {optimization : String}
    {visited : List ℤ} {st : SearchState}
    (hst : stateOK g start_id max_transfers max_walking_time st) :
    ∀ (edges : List NetworkEdge) (acc : RelaxAcc),
      (∀ e ∈ edges, e ∈ g.all_edges ∧ e.from_station_id = st.station) →
      (∀ x ∈ acc.pq, stateOK g start_id max_transfers max_walking_time x) →
      ∀ x ∈ (edges.foldl
          (relaxEdge optimization max_transfers max_walking_time visited st)
          acc).pq,
        stateOK g start_id max_transfers max_walking_time x := by
  intro edges
  induction edges with
  | nil => intro acc _ hacc; exact hacc
  | cons e es ih =>
    intro acc hes hacc
    refine ih _ (fun e' he' => hes e' (List.mem_cons_of_mem _ he')) ?_
    intro x hx
    rcases relaxEdge_pq x hx with h | ⟨rfl, hb1, hb2⟩
    · exact hacc x h
    · obtain ⟨he, hf⟩ := hes e (List.mem_cons_self _ _)
      refine ⟨chainFrom_append g e he st.path start_id st.station hst.1 hf,
        ?_, ?_, by simp, fun _ => ⟨hb1, hb2⟩⟩
      · rw [pathCounts_append, ← hst.2.1, ← hst.2.2.1]
      · rw [pathPrevFrom_append]

lemma initCfg_ok {g : NetworkGraph}
    {start_id max_transfers max_walking_time : ℤ} :
    ∀ x ∈ (initCfg start_id).pq,
      stateOK g start_id max_transfers max_walking_time x := by
  intro x hx
  simp only [initCfg, List.mem_singleton] at hx
  subst hx
  exact ⟨rfl, rfl, rfl, fun _ => rfl, fun h => absurd rfl h⟩

lemma mem_get_neighbors {g : NetworkGraph} {sid : ℤ} {e : NetworkEdge}
    (h : e ∈ g.get_neighbors sid) :
    e ∈ g.all_edges ∧ e.from_station_id = sid := by
  unfold NetworkGraph.get_neighbors at h
  obtain ⟨h1, h2⟩ := List.mem_filter.mp h
  exact ⟨h1, by simpa using h2⟩

lemma dijkstraStep_eq_pop {g : NetworkGraph} {end_id : ℤ}
    {optimization : String} {max_walking_time max_transfers : ℤ}
    {c : DijkstraCfg} {st : SearchState} {rest : List SearchState}
    (hp : popMin c.pq = some (st, rest)) :
    dijkstraStep g end_id optimization max_walking_time max_transfers c =
      dijkstraStepPop g end_id optimization max_walking_time max_transfers
        c st rest := by
  unfold dijkstraStep
  rw [hp]

lemma dijkstraStep_eq_exhausted {g : NetworkGraph} {end_id : ℤ}
    {optimization : String} {max_walking_time max_transfers : ℤ}
    {c : DijkstraCfg} (hp : popMin c.pq = none) :
    dijkstraStep g end_id optimization max_walking_time max_transfers c =
      .exhausted := by
  unfold dijkstraStep
  rw [hp]

lemma dijkstraStep_next_ok {g : NetworkGraph} {end_id : ℤ}
    {optimization : String}
    {max_walking_time max_transfers start_id : ℤ} {c c' : DijkstraCfg}
    (hc : ∀ x ∈ c.pq, stateOK g start_id max_transfers max_walking_time x)
    (h : dijkstraStep g end_id optimization max_walking_time max_transfers c =
      .next c') :
    ∀ x ∈ c'.pq, stateOK g start_id max_transfers max_walking_time x := by
  rcases hp : popMin c.pq with _ | ⟨st, rest⟩
  · rw [dijkstraStep_eq_exhausted hp] at h
    cases h
  · rw [dijkstraStep_eq_pop hp] at h
    obtain ⟨hstm, hrest⟩ := popMin_mem hp
    unfold dijkstraStepPop at h
    split at h
    · cases h
      intro x hx
      exact hc x (hrest x hx)
    · split at h
      · cases h
      · split at h
        · cases h
          intro x hx
          exact hc x (hrest x hx)
        · cases h
          intro x hx
          have hpq : (relaxNeighbors g optimization max_walking_time
              max_transfers c st rest).pq =
              ((g.get_neighbors st.station).foldl
                (relaxEdge optimization max_transfers max_walking_time
                  (st.station :: c.visited) st)
                { pq := rest, distances := c.distances }).pq := rfl
          rw [hpq] at hx
          exact foldl_relax_ok (hc st hstm) _ _
            (fun e he => mem_get_neighbors he)
            (fun y hy => hc y (hrest y hy)) x hx

lemma dijkstraStep_found {g : NetworkGraph} {end_id : ℤ}
    {optimization : String} {max_walking_time max_transfers : ℤ}
    {c : DijkstraCfg} {p : List NetworkEdge}
    (h : dijkstraStep g end_id optimization max_walking_time max_transfers c =
      .found p) :
    ∃ st ∈ c.pq, st.path = p ∧ st.station = end_id := by
  rcases hp : popMin c.pq with _ | ⟨st, rest⟩
  · rw [dijkstraStep_eq_exhausted hp] at h
    cases h
  · rw [dijkstraStep_eq_pop hp] at h
    unfold dijkstraStepPop at h
    split at h
    · cases h
    · split at h
      · rename_i hnv hend
        cases h
        exact ⟨st, (popMin_mem hp).1, rfl, hend⟩
      · split at h
        · cases h
        · cases h

lemma dijkstraLoop_succ_found {g : NetworkGraph} {end_id : ℤ}
    {optimization : String} {max_walking_time max_transfers : ℤ}
    {c : DijkstraCfg} {p : List NetworkEdge} {n : ℕ}
    (hs : dijkstraStep g end_id optimization max_walking_time max_transfers c =
      .found p) :
    dijkstraLoop g end_id optimization max_walking_time max_transfers
      (n + 1) c = some p := by
  unfold dijkstraLoop
  rw [hs]

lemma dijkstraLoop_succ_next {g : NetworkGraph} {end_id : ℤ}
    {optimization : String} {max_walking_time max_transfers : ℤ}
    {c c' : DijkstraCfg} {n : ℕ}
    (hs : dijkstraStep g end_id optimization max_walking_time max_transfers c =
      .next c') :
    dijkstraLoop g end_id optimization max_walking_time max_transfers
      (n + 1) c =
    dijkstraLoop g end_id optimization max_walking_time max_transfers n c' := by
  conv_lhs => unfold dijkstraLoop
  rw [hs]

lemma dijkstraLoop_succ_exhausted {g : NetworkGraph} {end_id : ℤ}
    {optimization : String} {max_walking_time max_transfers : ℤ}
    {c : DijkstraCfg} {n : ℕ}
    (hs : dijkstraStep g end_id optimization max_walking_time max_transfers c =
      .exhausted) :
    dijkstraLoop g end_id optimization max_walking_time max_transfers
      (n + 1) c = none := by
  unfold dijkstraLoop
  rw [hs]

lemma dijkstraLoop_sound {g : NetworkGraph} {end_id : ℤ}
    {optimization : String} {max_walking_time max_transfers start_id : ℤ} :
    ∀ (fuel : ℕ) (c : DijkstraCfg),
      (∀ x ∈ c.pq, stateOK g start_id max_transfers max_walking_time x) →
      ∀ p, dijkstraLoop g end_id optimization max_walking_time max_transfers
          fuel c = some p →
        chainFrom g start_id p end_id ∧
        (start_id ≠ end_id → p ≠ [] ∧
          (pathCounts none 0 0 p).1 ≤ max_transfers ∧
          (pathCounts none 0 0 p).2 ≤ max_walking_time) := by
  intro fuel
  induction fuel with
  | zero => intro c hc p h; cases h
  | succ n ih =>
    intro c hc p h
    cases hs : dijkstraStep g end_id optimization max_walking_time
        max_transfers c with
    | found p' =>
      rw [dijkstraLoop_succ_found hs] at h
      obtain rfl : p' = p := by injection h
      obtain ⟨st, hstm, hpath, hstation⟩ := dijkstraStep_found hs
      have hok := hc st hstm
      subst hpath
      refine ⟨hstation ▸ hok.1, fun hne => ?_⟩
      have hnil : st.path ≠ [] := by
        intro hn
        exact hne ((hok.2.2.2.1 hn).symm.trans hstation)
      obtain ⟨hb1, hb2⟩ := hok.2.2.2.2 hnil
      have hcounts := hok.2.1
      refine ⟨hnil, ?_, ?_⟩
      · rw [← hcounts]; exact hb1
      · rw [← hcounts]; exact hb2
    | next c' =>
      rw [dijkstraLoop_succ_next hs] at h
      exact ih c' (dijkstraStep_next_ok hc hs) p h
    | exhausted =>
      rw [dijkstraLoop_succ_exhausted hs] at h
      cases h

lemma runN_ok {g : NetworkGraph} {end_id : ℤ} {optimization : String}
    {max_walking_time max_transfers start_id : ℤ} :
    ∀ (n : ℕ) (c : DijkstraCfg),
      (∀ x ∈ c.pq, stateOK g start_id max_transfers max_walking_time x) →
      ∀ x ∈ (runN g end_id optimization max_walking_time max_transfers n
        c).pq, stateOK g start_id max_transfers max_walking_time x := by
  intro n
  induction n with
  | zero => intro c hc; exact hc
  | succ m ih =>
    intro c hc
    refine ih _ ?_
    unfold runNext
    cases hs : dijkstraStep g end_id optimization max_walking_time
        max_transfers c with
    | found p => exact hc
    | next c' => exact dijkstraStep_next_ok hc hs
    | exhausted => exact hc

/-- C2: at any point of the search, every queue entry other than the
initial one satisfies both request bounds — so no successor state whose
transfer count exceeds max_transfers or whose walking minutes exceed
max_walking_time is ever enqueued — and every entry's counts are exactly
the fold of the per-edge rule over its path: a transfer edge adds one
transfer and its duration of walking minutes; a train edge adds one
transfer, with no walking change, exactly when a (nonzero) previous line id
exists and differs from the edge's line id. -/
theorem C2_search_invariant (g : NetworkGraph) (start_id end_id : ℤ)
    (optimization : String) (max_walking_time max_transfers : ℤ) (n : ℕ)
    (st : SearchState)
    (hmem : st ∈ (runN g end_id optimization max_walking_time max_transfers
      n (initCfg start_id)).pq) :
    ((st.path ≠ [] →
        st.transfers ≤ max_transfers ∧ st.walking_time ≤ max_walking_time) ∧
      (st.transfers, st.walking_time) = pathCounts none 0 0 st.path) ∧
    (∀ (pl : Option ℤ) (t w : ℤ) (e : NetworkEdge),
      (e.transport_type = "transfer" →
        stepCounts pl t w e = (t + 1, w + e.duration_minutes)) ∧
      (e.transport_type = "train" →
        (∀ l : ℤ, pl = some l → l ≠ 0 → pl ≠ e.line_id →
          stepCounts pl t w e = (t + 1, w)) ∧
        ((pl = none ∨ pl = e.line_id) → stepCounts pl t w e = (t, w)))) := by
  have hox := runN_ok n (initCfg start_id) initCfg_ok st hmem
  refine ⟨⟨hox.2.2.2.2, hox.2.1⟩, ?_⟩
  intro pl t w e
  refine ⟨?_, fun htr => ⟨?_, ?_⟩⟩
  · intro h
    unfold stepCounts
    rw [if_pos h]
  · intro l hpl hl0 hne
    unfold stepCounts
    rw [if_neg (by rw [htr]; decide),
      if_pos ⟨htr, by rw [hpl]; simp [intTruthy, hl0], hne⟩]
  · intro hor
    unfold stepCounts
    rw [if_neg (by rw [htr]; decide), if_neg ?_]
    rintro ⟨-, ht, hne⟩
    rcases hor with rfl | rfl
    · simp [intTruthy] at ht
    · exact hne rfl


/-- Witness for C2 on a concrete search configuration. -/
theorem C2_search_invariant_witness :
    st0 ∈ (runN emptyGraph 2 "time" 10 3 0 (initCfg 1)).pq ∧
    (st0.transfers, st0.walking_time) = pathCounts none 0 0 st0.path :=
  ⟨by simp [runN, initCfg, st0],
    ((C2_search_invariant emptyGraph 1 2 "time" 10 3 0 st0
      (by simp [runN, initCfg, st0])).1).2⟩

/-- C7: plan_route returns an empty option list — and raises nothing, the
result being a value rather than an exception — whenever the origin equals
the destination, or either endpoint station is missing from the database,
or no path from origin to destination satisfies the transfer and
walking-time bounds. -/
theorem C7_failure_modes (fuel : ℕ) (db : DB) (now : ℤ) (req : RouteRequest)
    (h : req.from_station_id = req.to_station_id ∨
      findStation db req.from_station_id = none ∨
      findStation db req.to_station_id = none ∨
      ¬ constrainedPathExists (buildNetworkGraph db) req.from_station_id
          req.to_station_id req.max_transfers req.max_walking_time) :
    planRoute fuel db now req = some [] := by
  unfold planRoute
  rcases hf : findStation db req.from_station_id with _ | fs
  · rfl
  · rcases ht : findStation db req.to_station_id with _ | ts
    · rfl
    · rcases h with h | h | h | h
      · unfold calculateRoute
        unfold dijkstraShortestPath
        rw [if_pos h]
      · simp [h] at hf
      · simp [h] at ht
      · unfold calculateRoute
        rcases hd : dijkstraShortestPath fuel (buildNetworkGraph db) db now
            req.from_station_id req.to_station_id req.optimization
            req.max_walking_time req.max_transfers req.departure_time none
          with _ | primary
        · rfl
        · exfalso
          apply h
          unfold dijkstraShortestPath at hd
          split at hd
          · cases hd
          · rename_i hne
            rcases hl : dijkstraLoop (buildNetworkGraph db)
                req.to_station_id req.optimization req.max_walking_time
                req.max_transfers fuel (initCfg req.from_station_id)
              with _ | p
            · rw [hl] at hd
              simp at hd
            · have hsound := dijkstraLoop_sound fuel
                (initCfg req.from_station_id) initCfg_ok p hl
              exact ⟨p, (hsound.2 hne).1, hsound.1, (hsound.2 hne).2.1,
                (hsound.2 hne).2.2⟩


/-- Witness for C7 at a concrete same-endpoint request. -/
theorem C7_failure_modes_witness :
    planRoute 3 exFareDB 0 reqSame = some [] :=
  C7_failure_modes 3 exFareDB 0 reqSame (Or.inl rfl)

lemma sig_elem_iff (a b : RouteOption) :
    ((if |a.summary.total_duration_minutes - b.summary.total_duration_minutes| < 10 ∧
        |a.summary.total_cost - b.summary.total_cost| < 10 ∧
        |a.summary.total_transfers - b.summary.total_transfers| = 0
      then false else true) = true) ↔
      (10 ≤ |a.summary.total_duration_minutes - b.summary.total_duration_minutes| ∨
       10 ≤ |a.summary.total_cost - b.summary.total_cost| ∨
       a.summary.total_transfers ≠ b.summary.total_transfers) := by
  split
  · rename_i hc
    simp only [Bool.false_eq_true, false_iff]
    push_neg
    refine ⟨hc.1, hc.2.1, ?_⟩
    have h0 := abs_eq_zero.mp hc.2.2
    omega
  · rename_i hc
    simp only [true_iff]
    by_contra hno
    push_neg at hno
    exact hc ⟨hno.1, hno.2.1, by rw [abs_eq_zero, sub_eq_zero]; exact hno.2.2⟩

lemma isSig_iff (r : RouteOption) (acc : List RouteOption) :
    isSignificantlyDifferent r acc = true ↔ specAccept r acc := by
  unfold isSignificantlyDifferent specAccept
  rw [List.all_eq_true]
  exact forall₂_congr (fun e _ => sig_elem_iff r e)

lemma altLoop_eq_specAltFold (fuel : ℕ) (g : NetworkGraph) (db : DB)
    (now : ℤ) (req : RouteRequest) (primary : RouteOption) :
    ∀ (ms : List String) (acc : List RouteOption),
      altLoop fuel g db now req primary ms acc =
        specAltFold fuel g db now req primary ms acc := by
  intro ms
  induction ms with
  | nil => intro acc; rfl
  | cons m rest ih =>
    intro acc
    unfold altLoop specAltFold
    by_cases hl : 3 ≤ acc.length
    · rw [if_pos hl, if_pos hl]
    · rw [if_neg hl, if_neg hl]
      rcases hd : dijkstraShortestPath fuel g db now req.from_station_id
          req.to_station_id m req.max_walking_time req.max_transfers
          req.departure_time (some primary) with _ | cand
      · exact ih acc
      · show (if isSignificantlyDifferent cand acc = true then
            altLoop fuel g db now req primary rest (acc ++ [cand])
          else altLoop fuel g db now req primary rest acc) =
          (if specAccept cand acc then
            specAltFold fuel g db now req primary rest (acc ++ [cand])
          else specAltFold fuel g db now req primary rest acc)
        rw [if_congr (isSig_iff cand acc) (ih (acc ++ [cand])) (ih acc)]

lemma removeFirst_eq_erase :
    ∀ (l : List String) (x : String), x ∈ l →
      removeFirst l x = some (l.erase x) := by
  intro l x
  induction l with
  | nil => intro h; cases h
  | cons y ys ih =>
    intro h
    unfold removeFirst
    by_cases hxy : y = x
    · rw [if_pos hxy]
      simp [List.erase_cons, hxy]
    · rw [if_neg hxy]
      rcases List.mem_cons.mp h with rfl | hmem
      · exact absurd rfl hxy
      · rw [ih hmem]
        simp only [Option.map_some', Option.some.injEq]
        simp [List.erase_cons, hxy]

lemma specAltFold_length (fuel : ℕ) (g : NetworkGraph) (db : DB) (now : ℤ)
    (req : RouteRequest) (primary : RouteOption) :
    ∀ (ms : List String) (acc : List RouteOption), acc.length ≤ 3 →
      (specAltFold fuel g db now req primary ms acc).length ≤ 3 := by
  intro ms
  induction ms with
  | nil => intro acc h; exact h
  | cons m rest ih =>
    intro acc h
    unfold specAltFold
    by_cases hl : 3 ≤ acc.length
    · rw [if_pos hl]
      exact h
    · rw [if_neg hl]
      push_neg at hl
      rcases hd : dijkstraShortestPath fuel g db now req.from_station_id
          req.to_station_id m req.max_walking_time req.max_transfers
          req.departure_time (some primary) with _ | cand
      · exact ih acc h
      · show (if specAccept cand acc then
            specAltFold fuel g db now req primary rest (acc ++ [cand])
          else specAltFold fuel g db now req primary rest acc).length ≤ 3
        by_cases hs : specAccept cand acc
        · rw [if_pos hs]
          refine ih _ ?_
          simp only [List.length_append, List.length_singleton]
          omega
        · rw [if_neg hs]
          exact ih acc h

/-- C3: for a request whose optimization mode is one of the three known
modes (which the pydantic schema guarantees), calculate_route raises
nothing and returns exactly the primary result followed by the candidates
from the two remaining modes, each appended if and only if it differs from
every already-accepted option by at least 10 minutes of duration or 10
currency units of cost or in transfer count — and never more than 3
options. -/
theorem C3_alternatives (fuel : ℕ) (g : NetworkGraph) (db : DB) (now : ℤ)
    (req : RouteRequest)
    (h : req.optimization ∈ (["time", "cost", "transfers"] : List String)) :
    calculateRoute fuel g db now req =
      some (specRoutes fuel g db now req) ∧
    (specRoutes fuel g db now req).length ≤ 3 := by
  constructor
  · unfold calculateRoute specRoutes
    rcases hd : dijkstraShortestPath fuel g db now req.from_station_id
        req.to_station_id req.optimization req.max_walking_time
        req.max_transfers req.departure_time none with _ | primary
    · rfl
    · rw [removeFirst_eq_erase _ _ h]
      simp only [Option.map_some', Option.some.injEq]
      exact altLoop_eq_specAltFold fuel g db now req primary _ [primary]
  · unfold specRoutes
    rcases hd : dijkstraShortestPath fuel g db now req.from_station_id
        req.to_station_id req.optimization req.max_walking_time
        req.max_transfers req.departure_time none with _ | primary
    · simp
    · exact specAltFold_length fuel g db now req primary _ [primary]
        (by simp)


/-- Witness for C3 at a concrete request with optimization "time". -/
theorem C3_alternatives_witness :
    exReq.optimization ∈ (["time", "cost", "transfers"] : List String) ∧
    calculateRoute 5 emptyGraph exFareDB 0 exReq =
      some (specRoutes 5 emptyGraph exFareDB 0 exReq) :=
  ⟨by decide, (C3_alternatives 5 emptyGraph exFareDB 0 exReq (by decide)).1⟩

end TrainSys
